import Mathlib

/-!
Shallow embedding of `src/alert.py` (CAP/Atom alert feed → KML converter).

Python floats are modelled over `ℚ`: every arithmetic step of the source
(`+`, `-`, `*`, `/`, `abs`, comparisons) is translated to the corresponding
exact rational operation.  Python strings are Lean `String`s; `str.strip`,
`str.split`, `str.lower`, the `in` substring test and the usable subset of
`float()` (finite decimal and scientific literals) are modelled explicitly
below.  Exceptions are modelled with `Except Unit`: code that the source
wraps in `try:`/`except Exception: pass` is embedded as an `Except`-valued
body together with an explicit catch.
-/

attribute [local semireducible] Rat.add Rat.mul Rat.sub Rat.inv Rat.ofScientific

/-- Characters treated as whitespace by Python `str.strip()` / `str.split()`. -/
def isPySpace (c : Char) : Bool :=
  c = ' ' || c = '\t' || c = '\n' || c = '\r' || c = '\x0b' || c = '\x0c'

/-- Model of Python `str.strip()`: drop leading and trailing whitespace. -/
def pyStrip (s : String) : String :=
  ⟨((s.toList.dropWhile isPySpace).reverse.dropWhile isPySpace).reverse⟩

/-- Helper for `pySplit`: walk the characters, accumulating the current
token (in reverse) and emitting it at each whitespace run. -/
def pySplitAux : List Char → List Char → List String
  | [], [] => []
  | [], acc => [⟨acc.reverse⟩]
  | c :: rest, acc =>
    if isPySpace c then
      match acc with
      | [] => pySplitAux rest []
      | _ => ⟨acc.reverse⟩ :: pySplitAux rest []
    else
      pySplitAux rest (c :: acc)

/-- Model of Python `str.split()` with no arguments: split on runs of
whitespace, never producing empty tokens. -/
def pySplit (s : String) : List String :=
  pySplitAux s.toList []

/-- Model of Python `str.lower()` on the ASCII strings this program handles. -/
def pyLower (s : String) : String :=
  ⟨s.toList.map Char.toLower⟩

/-- Model of Python `a or b` on strings: the empty string is falsy. -/
def pyOr (a b : String) : String :=
  if a = "" then b else a

/-- Model of the Python substring test `needle in haystack`. -/
def strContains (haystack needle : String) : Bool :=
  haystack.toList.tails.any (fun suf => needle.toList.isPrefixOf suf)

/-- Numeric value of a digit string (most significant first). -/
def digitsToNat (ds : List Char) : ℕ :=
  ds.foldl (fun a c => 10 * a + (c.toNat - 48)) 0

/-- Consume an optional leading sign; `true` means non-negative. -/
def parseSign (cs : List Char) : Bool × List Char :=
  match cs with
  | c :: r => if c = '+' then (true, r) else if c = '-' then (false, r) else (true, cs)
  | [] => (true, [])

/-- Parse the mantissa of a float literal: `digits`, `digits.digits?` or
`.digits`; returns its rational value and the unconsumed suffix. -/
def parseMantissa (cs : List Char) : Option (ℚ × List Char) :=
  let ip := cs.takeWhile Char.isDigit
  let r1 := cs.dropWhile Char.isDigit
  match r1 with
  | c :: r2 =>
    if c = '.' then
      let fp := r2.takeWhile Char.isDigit
      let r3 := r2.dropWhile Char.isDigit
      if ip.isEmpty && fp.isEmpty then none
      else some ((digitsToNat ip : ℚ) + (digitsToNat fp : ℚ) / ((10 : ℚ) ^ fp.length), r3)
    else if ip.isEmpty then none else some ((digitsToNat ip : ℚ), r1)
  | [] => if ip.isEmpty then none else some ((digitsToNat ip : ℚ), [])

/-- Parse an optional exponent suffix `e±digits` (the whole remainder must be
consumed); an absent suffix is exponent `0`. -/
def parseExp (cs : List Char) : Option ℤ :=
  match cs with
  | [] => some 0
  | c :: r =>
    if c = 'e' || c = 'E' then
      let sr := parseSign r
      let ds := sr.2.takeWhile Char.isDigit
      let rest := sr.2.dropWhile Char.isDigit
      if ds.isEmpty || !rest.isEmpty then none
      else some (if sr.1 then (digitsToNat ds : ℤ) else -(digitsToNat ds : ℤ))
    else none

/-- Model of Python `float(s)` on the finite decimal and scientific literals
that occur in geometry strings (`"31.5"`, `"-97.25"`, `"1e-9"`, …); returns
`none` where `float()` raises `ValueError`.  Special forms (`inf`, `nan`,
digit underscores) are outside the modelled subset. -/
def pyFloat (s : String) : Option ℚ :=
  let cs := (pyStrip s).toList
  let sr := parseSign cs
  match parseMantissa sr.2 with
  | some mr =>
    match parseExp mr.2 with
    | some e =>
      let v := mr.1 * (10 : ℚ) ^ e
      some (if sr.1 then v else -v)
    | none => none
  | none => none

/-- Source table `STATE_CENTROIDS`: insertion-ordered mapping from US state
abbreviation to a rough (lat, lon) centroid. -/
def STATE_CENTROIDS : List (String × ℚ × ℚ) :=
  [("AL", 32.806671, -86.791130),
   ("AK", 61.370716, -152.404419),
   ("AZ", 33.729759, -111.431221),
   ("AR", 34.969704, -92.373123),
   ("CA", 36.116203, -119.681564),
   ("CO", 39.059811, -105.311104),
   ("CT", 41.597782, -72.755371),
   ("DE", 39.318523, -75.507141),
   ("FL", 27.766279, -81.686783),
   ("GA", 33.040619, -83.643074),
   ("HI", 21.094318, -157.498337),
   ("ID", 44.240459, -114.478828),
   ("IL", 40.349457, -88.986137),
   ("IN", 39.849426, -86.258278),
   ("IA", 42.011539, -93.210526),
   ("KS", 38.526600, -96.726486),
   ("KY", 37.668140, -84.670067),
   ("LA", 31.169546, -91.867805),
   ("ME", 44.693947, -69.381927),
   ("MD", 39.063946, -76.802101),
   ("MA", 42.230171, -71.530106),
   ("MI", 43.326618, -84.536095),
   ("MN", 45.694454, -93.900192),
   ("MS", 32.741646, -89.678696),
   ("MO", 38.456085, -92.288368),
   ("MT", 46.921925, -110.454353),
   ("NE", 41.125370, -98.268082),
   ("NV", 38.313515, -117.055374),
   ("NH", 43.452492, -71.563896),
   ("NJ", 40.298904, -74.521011),
   ("NM", 34.840515, -106.248482),
   ("NY", 42.165726, -74.948051),
   ("NC", 35.630066, -79.806419),
   ("ND", 47.528912, -99.784012),
   ("OH", 40.388783, -82.764915),
   ("OK", 35.565342, -96.928917),
   ("OR", 44.572021, -122.070938),
   ("PA", 40.590752, -77.209755),
   ("RI", 41.680893, -71.511780),
   ("SC", 33.856892, -80.945007),
   ("SD", 44.299782, -99.438828),
   ("TN", 35.747845, -86.692345),
   ("TX", 31.054487, -97.563461),
   ("UT", 40.150032, -111.862434),
   ("VT", 44.045876, -72.710686),
   ("VA", 37.769337, -78.169968),
   ("WA", 47.400902, -121.490494),
   ("WV", 38.491226, -80.954456),
   ("WI", 44.268543, -89.616508),
   ("WY", 42.755966, -107.302490)]

/-- Source table `SEVERITY_ICON`: insertion-ordered mapping from CAP
severity to icon URL. -/
def SEVERITY_ICON : List (String × String) :=
  [("Extreme", "http://maps.google.com/mapfiles/kml/paddle/red-circle.png"),
   ("Severe", "http://maps.google.com/mapfiles/kml/paddle/red-circle.png"),
   ("Moderate", "http://maps.google.com/mapfiles/kml/paddle/ylw-circle.png"),
   ("Minor", "http://maps.google.com/mapfiles/kml/paddle/grn-circle.png")]

/-- Source constant `DEFAULT_ICON`. -/
def DEFAULT_ICON : String :=
  "http://maps.google.com/mapfiles/kml/paddle/wht-circle.png"

/-- Cross term `x1*y2 - x2*y1` of one wrapped vertex pair (points as (x, y)). -/
def crossT (pq : (ℚ × ℚ) × (ℚ × ℚ)) : ℚ :=
  pq.1.1 * pq.2.2 - pq.2.1 * pq.1.2

/-- One iteration of the `polygon_centroid` loop: update the accumulated
`(a, cx, cy)` with the contribution of one wrapped vertex pair. -/
def centStep (s : ℚ × ℚ × ℚ) (pq : (ℚ × ℚ) × (ℚ × ℚ)) : ℚ × ℚ × ℚ :=
  (s.1 + crossT pq,
   s.2.1 + (pq.1.1 + pq.2.1) * crossT pq,
   s.2.2 + (pq.1.2 + pq.2.2) * crossT pq)

/-- The list of pairs `(pts[i], pts[(i+1) % n])` traversed by the loop. -/
def wrapPairs (pts : List (ℚ × ℚ)) : List ((ℚ × ℚ) × (ℚ × ℚ)) :=
  pts.zip (pts.rotate 1)

/-- Source function `polygon_centroid`: centroid (lat, lon) of a polygon given
as a list of (lat, lon); `none` for the empty list.  Vertices are converted to
(x = lon, y = lat), the signed-area accumulator and first moments are folded
over consecutive wrapped vertex pairs, and if `|a| < 1e-9` the arithmetic mean
of the vertices is returned instead of the shoelace centroid. -/
def polygon_centroid (latlons : List (ℚ × ℚ)) : Option (ℚ × ℚ) :=
  if latlons = [] then none
  else
    let pts := latlons.map (fun p => (p.2, p.1))
    let acc := (wrapPairs pts).foldl centStep (0, 0, 0)
    if |acc.1| < 1e-9 then
      some ((latlons.map Prod.fst).sum / (latlons.length : ℚ),
            (latlons.map Prod.snd).sum / (latlons.length : ℚ))
    else
      let a := acc.1 * (0.5 : ℚ)
      some (acc.2.2 / (6 * a), acc.2.1 / (6 * a))

/-- The signed-area accumulator A of the spec (§4.1 step 2): the sum of the
cross terms over consecutive wrapped vertex pairs, exactly the value the
source's variable `a` holds when the degeneracy test `abs(a) < 1e-9` runs
(twice the conventional polygon area). -/
def signedAreaSum (pts : List (ℚ × ℚ)) : ℚ :=
  ((wrapPairs pts).map crossT).sum

/-- First moment in x accumulated by the loop (`cx` in the source). -/
def momentX (pts : List (ℚ × ℚ)) : ℚ :=
  ((wrapPairs pts).map (fun pq => (pq.1.1 + pq.2.1) * crossT pq)).sum

/-- First moment in y accumulated by the loop (`cy` in the source). -/
def momentY (pts : List (ℚ × ℚ)) : ℚ :=
  ((wrapPairs pts).map (fun pq => (pq.1.2 + pq.2.2) * crossT pq)).sum

/-- Arithmetic mean of the vertex latitudes and longitudes. -/
def vertexMean (latlons : List (ℚ × ℚ)) : ℚ × ℚ :=
  ((latlons.map Prod.fst).sum / (latlons.length : ℚ),
   (latlons.map Prod.snd).sum / (latlons.length : ℚ))

/-- The shoelace (signed-area) centroid of the (x = lon, y = lat) point set,
mapped back to (lat, lon): with area `A = signedAreaSum / 2`, the centroid is
`(Cy / (6A), Cx / (6A))` read back as (lat, lon) = (y, x). -/
def shoelaceCentroidLatLon (latlons : List (ℚ × ℚ)) : ℚ × ℚ :=
  let pts := latlons.map (fun p => (p.2, p.1))
  let a := signedAreaSum pts * (0.5 : ℚ)
  (momentY pts / (6 * a), momentX pts / (6 * a))

/-- One raw Atom entry, reduced to the text content of the sub-elements the
program reads: `none` models an absent element or an element whose `.text`
is `None`. -/
structure RawEntry where
  point : Option String
  polygon : Option String
  id : Option String
  title : Option String
  updated : Option String
  summary : Option String
  event : Option String
  effective : Option String
  expires : Option String
  urgency : Option String
  severity : Option String
  certainty : Option String
  areaDesc : Option String
  headline : Option String
  description : Option String
  instruction : Option String

/-- Source function `text_of`: trimmed text of a located node, or the empty
string when the node is absent or its text is absent/empty. -/
def text_of (t : Option String) : String :=
  match t with
  | some s => if s = "" then "" else pyStrip s
  | none => ""

/-- The `for state, centroid in STATE_CENTROIDS.items()` loop of the textual
fallback: return the centroid of the first key contained in `area`. -/
def lookupCentroid (area : String) : List (String × ℚ × ℚ) → Option (ℚ × ℚ)
  | [] => none
  | p :: rest => if strContains area p.1 then some p.2 else lookupCentroid area rest

/-- Step 3 of `parse_point_from_entry`: the `cap:areaDesc` fallback, followed
by the final `return None`. -/
def areaFallback (e : RawEntry) : Option (ℚ × ℚ) :=
  let area := text_of e.areaDesc
  if area = "" then none else lookupCentroid area STATE_CENTROIDS

/-- The polygon list comprehension: pair up tokens `(float(nums[i]),
float(nums[i+1]))` for even `i`; `none` models the `ValueError`/`IndexError`
raised on a non-numeric token or an odd token count. -/
def parseCoords : List String → Option (List (ℚ × ℚ))
  | [] => some []
  | [_] => none
  | a :: b :: rest =>
    match pyFloat a, pyFloat b, parseCoords rest with
    | some la, some lo, some r => some ((la, lo) :: r)
    | _, _, _ => none

/-- Body of the `georss:point` try-block: split the stripped text, unpack
exactly two tokens and convert both with `float`; `Except.error` models the
exception that the source catches with `except Exception: pass`. -/
def pointBodyE (t : String) : Except Unit (ℚ × ℚ) :=
  match pySplit (pyStrip t) with
  | [a, b] =>
    match pyFloat a with
    | some la =>
      match pyFloat b with
      | some lo => Except.ok (la, lo)
      | none => Except.error ()
    | none => Except.error ()
  | _ => Except.error ()

/-- Body of the `georss:polygon` try-block: build the coordinate pairs and
return `polygon_centroid` of them (which may itself be `none`);
`Except.error` models the exception the source catches. -/
def polyBodyE (t : String) : Except Unit (Option (ℚ × ℚ)) :=
  match parseCoords (pySplit (pyStrip t)) with
  | some coords => Except.ok (polygon_centroid coords)
  | none => Except.error ()

/-- Step 2 of `parse_point_from_entry`: if a polygon element with truthy text
is present, run its try-block — a caught exception falls through to the
`cap:areaDesc` fallback, while a successful body's result (possibly `None`)
is returned as is. -/
def resolveStep2 (e : RawEntry) : Option (ℚ × ℚ) :=
  match e.polygon with
  | some t =>
    if t = "" then areaFallback e
    else
      match polyBodyE t with
      | Except.ok r => r
      | Except.error _ => areaFallback e
  | none => areaFallback e

/-- Source function `parse_point_from_entry`: prefer a `georss:point`, then a
`georss:polygon` centroid, then the `cap:areaDesc` table lookup; `none` when
nothing resolves.  Each try/except of the source appears as a match on the
corresponding `Except`-valued body, with the error branch falling through. -/
def parse_point_from_entry (e : RawEntry) : Option (ℚ × ℚ) :=
  match e.point with
  | some t =>
    if t = "" then resolveStep2 e
    else
      match pointBodyE t with
      | Except.ok pt => some pt
      | Except.error _ => resolveStep2 e
  | none => resolveStep2 e

/-- Model of `try: body except Exception: handler` for a body already in
result form. -/
def pyTry {α : Type} (body handler : Except Unit α) : Except Unit α :=
  match body with
  | Except.ok r => Except.ok r
  | Except.error _ => handler

/-- Exception-propagating embedding of step 2 followed by step 3. -/
def resolveStep2E (e : RawEntry) : Except Unit (Option (ℚ × ℚ)) :=
  match e.polygon with
  | some t =>
    if t = "" then Except.ok (areaFallback e)
    else pyTry (polyBodyE t) (Except.ok (areaFallback e))
  | none => Except.ok (areaFallback e)

/-- Exception-propagating embedding of `parse_point_from_entry`: the value is
`Except.error ()` exactly when the source would let an exception escape to the
caller. -/
def parsePointE (e : RawEntry) : Except Unit (Option (ℚ × ℚ)) :=
  match e.point with
  | some t =>
    if t = "" then resolveStep2E e
    else
      match pointBodyE t with
      | Except.ok pt => Except.ok (some pt)
      | Except.error _ => resolveStep2E e
  | none => resolveStep2E e

/-- A point string is malformed when it does not consist of exactly two
whitespace-separated tokens that both convert with `float`. -/
def pointMalformed (t : String) : Bool :=
  match pySplit (pyStrip t) with
  | [a, b] => (pyFloat a).isNone || (pyFloat b).isNone
  | _ => true

/-- The `georss:point` step of an entry cannot succeed: element absent, text
empty, or text malformed. -/
def pointUnusable (e : RawEntry) : Bool :=
  match e.point with
  | none => true
  | some t => t = "" || pointMalformed t

/-- The `georss:polygon` step of an entry cannot produce a centroid and does
not short-circuit resolution: element absent, text empty, or the coordinate
comprehension raises. -/
def polyUnusable (e : RawEntry) : Bool :=
  match e.polygon with
  | none => true
  | some t => t = "" || (parseCoords (pySplit (pyStrip t))).isNone

/-- One normalized alert record as built by `main`: the resolved point plus
the extracted text fields. -/
structure Record where
  point : ℚ × ℚ
  id : String
  title : String
  updated : String
  summary : String
  event : String
  effective : String
  expires : String
  urgency : String
  severity : String
  certainty : String
  areaDesc : String
  headline : String
  description : String
  instruction : String

/-- The record dictionary `main` builds for an entry whose point resolved. -/
def mkRecord (pt : ℚ × ℚ) (e : RawEntry) : Record :=
  { point := pt,
    id := text_of e.id,
    title := text_of e.title,
    updated := text_of e.updated,
    summary := text_of e.summary,
    event := text_of e.event,
    effective := text_of e.effective,
    expires := text_of e.expires,
    urgency := text_of e.urgency,
    severity := text_of e.severity,
    certainty := text_of e.certainty,
    areaDesc := text_of e.areaDesc,
    headline := text_of e.headline,
    description := text_of e.description,
    instruction := text_of e.instruction }

/-- One KML `Placemark` as assembled by `build_kml`: display name, style
reference, snippet, the extended-data name/value pairs, and the coordinate
triple `(lon, lat, 0)` (output order reversed from storage order). -/
structure Placemark where
  name : String
  styleUrl : String
  snippet : String
  extData : List (String × String)
  coordinates : ℚ × ℚ × ℚ

/-- The placemark `build_kml` emits for one record. -/
def mkPlacemark (r : Record) : Placemark :=
  { name := pyOr (pyOr r.title r.event) "Alert",
    styleUrl := "#sev_" ++ pyLower (pyOr r.severity "Unknown"),
    snippet := pyOr (pyOr r.headline r.summary) "",
    extData :=
      [("ext_event", pyOr r.event ""),
       ("ext_severity", pyOr r.severity ""),
       ("ext_urgency", pyOr r.urgency ""),
       ("ext_certainty", pyOr r.certainty ""),
       ("ext_effective", pyOr r.effective ""),
       ("ext_expires", pyOr r.expires ""),
       ("ext_areaDesc", pyOr r.areaDesc ""),
       ("ext_description", pyOr r.description ""),
       ("ext_instruction", pyOr r.instruction ""),
       ("ext_id", pyOr r.id "")],
    coordinates := (r.point.2, r.point.1, 0) }

/-- The KML document: fixed name, the severity styles in definition order
(id, icon href; the fixed icon/label scales 1.2 and 0.9 are constants of
every style), the shared balloon template, and one placemark per record. -/
structure KmlDoc where
  docName : String
  styles : List (String × String)
  balloonTemplate : String
  placemarks : List Placemark

/-- The balloon HTML template emitted once per document (apostrophes written
as \x27 escapes). -/
def BALLOON_TEMPLATE : String :=
  "<![CDATA[<div style=\x27font-family:Arial, sans-serif;\x27>" ++
  "<h3>$[name]</h3><p><b>Event:</b> $[ext_event]</p>" ++
  "<p><b>Severity:</b> $[ext_severity] &nbsp; <b>Urgency:</b> $[ext_urgency] &nbsp; <b>Certainty:</b> $[ext_certainty]</p>" ++
  "<p><b>Effective:</b> $[ext_effective]<br/><b>Expires:</b> $[ext_expires]</p>" ++
  "<p><b>Areas:</b> $[ext_areaDesc]</p>" ++
  "<p><b>Description</b><br/>$[ext_description]</p>" ++
  "<p><b>Instruction</b><br/>$[ext_instruction]</p>" ++
  "<p><a href=\x27$[ext_id]\x27 target=\x27_blank\x27>Alert Link</a></p></div>]]>"

/-- Source function `build_kml`: document name, one style per severity of
`{**SEVERITY_ICON, "Unknown": DEFAULT_ICON}` in insertion order with id
`sev_<lowercased severity>`, the balloon template, and one placemark per
record in input order. -/
def build_kml (records : List Record) : KmlDoc :=
  { docName := "NOAA Active Alerts (Points)",
    styles := (SEVERITY_ICON ++ [("Unknown", DEFAULT_ICON)]).map
      (fun p => ("sev_" ++ pyLower p.1, p.2)),
    balloonTemplate := BALLOON_TEMPLATE,
    placemarks := records.map mkPlacemark }

/-- The ten CAP-derived extended-data fields, in emission order: each output
name paired with the record accessor it is populated from. -/
def capFields : List (String × (Record → String)) :=
  [("ext_event", Record.event),
   ("ext_severity", Record.severity),
   ("ext_urgency", Record.urgency),
   ("ext_certainty", Record.certainty),
   ("ext_effective", Record.effective),
   ("ext_expires", Record.expires),
   ("ext_areaDesc", Record.areaDesc),
   ("ext_description", Record.description),
   ("ext_instruction", Record.instruction),
   ("ext_id", Record.id)]

/-- The per-entry loop of `main`: resolve each entry's point and keep, in
input order, a record for every entry that resolved (`if not point: continue`
drops exactly the `None` results, since a returned pair is always truthy). -/
def process (entries : List RawEntry) : List Record :=
  entries.filterMap (fun e => (parse_point_from_entry e).map (fun pt => mkRecord pt e))

/-- An entry with every sub-element absent, for concrete test inputs. -/
def emptyEntry : RawEntry :=
  { point := none, polygon := none, id := none, title := none, updated := none,
    summary := none, event := none, effective := none, expires := none,
    urgency := none, severity := none, certainty := none, areaDesc := none,
    headline := none, description := none, instruction := none }

/-- A record with every text field empty, for concrete test inputs. -/
def emptyRecord : Record :=
  { point := (0, 0), id := "", title := "", updated := "", summary := "",
    event := "", effective := "", expires := "", urgency := "", severity := "",
    certainty := "", areaDesc := "", headline := "", description := "",
    instruction := "" }

/-! ## Helper lemmas -/

/-- The centroid loop's fold computes the three accumulated sums. -/
theorem foldl_centStep (ps : List ((ℚ × ℚ) × (ℚ × ℚ))) (s : ℚ × ℚ × ℚ) :
    ps.foldl centStep s =
      (s.1 + (ps.map crossT).sum,
       s.2.1 + (ps.map (fun pq => (pq.1.1 + pq.2.1) * crossT pq)).sum,
       s.2.2 + (ps.map (fun pq => (pq.1.2 + pq.2.2) * crossT pq)).sum) := by
  induction ps generalizing s with
  | nil => simp
  | cons p ps ih =>
    simp only [List.foldl_cons, List.map_cons, List.sum_cons, ih, centStep, Prod.mk.injEq]
    refine ⟨by ring, by ring, by ring⟩

/-- The textual-fallback loop returns the first table entry whose key is a
substring of the area description. -/
theorem lookupCentroid_eq_find (area : String) (l : List (String × ℚ × ℚ)) :
    lookupCentroid area l = (l.find? (fun p => strContains area p.1)).map Prod.snd := by
  induction l with
  | nil => rfl
  | cons p rest ih =>
    by_cases h : strContains area p.1
    · simp [lookupCentroid, h, List.find?]
    · simp only [Bool.not_eq_true] at h
      simp [lookupCentroid, h, List.find?, ih]

/-- A malformed point string makes the point try-block raise. -/
theorem pointMalformed_error (t : String) (h : pointMalformed t = true) :
    pointBodyE t = Except.error () := by
  unfold pointMalformed at h
  unfold pointBodyE
  cases hsp : pySplit (pyStrip t) with
  | nil => rfl
  | cons a rest =>
    cases rest with
    | nil => rfl
    | cons b rest2 =>
      cases rest2 with
      | nil =>
        rw [hsp] at h
        cases ha : pyFloat a with
        | none => simp [ha]
        | some la =>
          cases hb : pyFloat b with
          | none => simp [ha, hb]
          | some lo => simp [ha, hb] at h
      | cons c rest3 => rfl

/-- A one-vertex polygon's centroid is that vertex (degenerate mean branch). -/
theorem polygon_centroid_single (la lo : ℚ) :
    polygon_centroid [(la, lo)] = some (la, lo) := by
  unfold polygon_centroid wrapPairs
  simp [List.rotate_singleton, centStep, crossT]
  norm_num

/-- A polygon whose coordinate comprehension raises makes the polygon
try-block raise. -/
theorem polyBodyE_error (t : String)
    (h : parseCoords (pySplit (pyStrip t)) = none) :
    polyBodyE t = Except.error () := by
  unfold polyBodyE
  rw [h]

/-- The polygon-and-fallback stage never raises: its exception-propagating
embedding returns exactly the pure result. -/
theorem resolveStep2E_ok (e : RawEntry) :
    resolveStep2E e = Except.ok (resolveStep2 e) := by
  unfold resolveStep2E resolveStep2 pyTry
  cases e.polygon with
  | none => rfl
  | some t =>
    by_cases hne : t = ""
    · simp [hne]
    · simp only [if_neg hne]
      cases polyBodyE t <;> rfl

/-! ## Claim theorems -/

/-- Claim C1: for every polygon handed to the centroid computation (the
source only ever passes nonempty vertex lists from the comprehension, and
returns `None` for an empty one before any arithmetic), whenever the
accumulated shoelace signed area A satisfies |A| < 1e-9 the function returns
the arithmetic mean of all vertex latitudes and longitudes, and whenever
|A| ≥ 1e-9 it returns the shoelace signed-area centroid mapped back to
(lat, lon). -/
theorem polygon_centroid_dichotomy (latlons : List (ℚ × ℚ)) (h : latlons ≠ []) :
    polygon_centroid latlons =
      some (if |signedAreaSum (latlons.map (fun p => (p.2, p.1)))| < 1e-9
            then vertexMean latlons
            else shoelaceCentroidLatLon latlons) := by
  unfold polygon_centroid
  rw [if_neg h]
  simp only [foldl_centStep, zero_add]
  unfold vertexMean shoelaceCentroidLatLon signedAreaSum momentX momentY
  rw [apply_ite some]

/-- Witness for C1 at a concrete square: hypotheses discharged, result
evaluated. -/
theorem polygon_centroid_dichotomy_witness :
    polygon_centroid [((0 : ℚ), (0 : ℚ)), (0, 4), (4, 4), (4, 0)] = some (2, 2) := by
  have h := polygon_centroid_dichotomy [((0 : ℚ), (0 : ℚ)), (0, 4), (4, 4), (4, 0)]
    (by decide)
  rw [h]
  decide

/-- Claim C8: for the square with vertices (0,0), (0,2), (2,2), (2,0) in
order, given as (lat, lon) pairs, `polygon_centroid` returns exactly (1,1). -/
theorem square_centroid :
    polygon_centroid [((0 : ℚ), (0 : ℚ)), (0, 2), (2, 2), (2, 0)] = some (1, 1) := by
  decide

/-- Claim C9: a present polygon element with non-empty, whitespace-only text
makes resolution return unresolved immediately — the coordinate list parses
to `[]`, `polygon_centroid []` is `None`, and that `None` is returned without
attempting the textual area-description fallback. -/
theorem whitespace_polygon_unresolved (e : RawEntry) (t : String)
    (hp : e.point = none) (hpoly : e.polygon = some t) (hne : t ≠ "")
    (htok : pySplit (pyStrip t) = []) :
    parse_point_from_entry e = none := by
  simp [parse_point_from_entry, resolveStep2, polyBodyE, hp, hpoly, hne, htok,
    parseCoords, polygon_centroid]

/-- Witness for C9: a whitespace-only polygon drops the entry even though its
area description names a known region. -/
theorem whitespace_polygon_unresolved_witness :
    parse_point_from_entry
      { emptyEntry with polygon := some "   ", areaDesc := some "Dallas, TX" } = none := by
  exact whitespace_polygon_unresolved _ "   " rfl rfl (by decide) (by decide)

/-- Claim C10: a polygon whose text parses to exactly one (lat, lon) vertex
pair resolves successfully to that vertex, via the degenerate mean fallback
(the wrapped single vertex has zero signed area). -/
theorem single_vertex_polygon (e : RawEntry) (t a b : String) (la lo : ℚ)
    (hp : e.point = none) (hpoly : e.polygon = some t)
    (htok : pySplit (pyStrip t) = [a, b])
    (ha : pyFloat a = some la) (hb : pyFloat b = some lo) :
    parse_point_from_entry e = some (la, lo) := by
  have hne : t ≠ "" := by
    intro hteq
    rw [hteq] at htok
    have hz : pySplit (pyStrip "") = [] := by decide
    rw [hz] at htok
    exact List.noConfusion htok
  simp [parse_point_from_entry, resolveStep2, polyBodyE, hp, hpoly, hne, htok,
    parseCoords, ha, hb, polygon_centroid_single]

/-- Witness for C10 at a concrete single-vertex polygon. -/
theorem single_vertex_polygon_witness :
    parse_point_from_entry { emptyEntry with polygon := some "31.5 -97.25" }
      = some (31.5, -97.25) := by
  exact single_vertex_polygon _ "31.5 -97.25" "31.5" "-97.25" 31.5 (-97.25)
    rfl rfl (by decide) (by decide) (by decide)

/-- Claim C5: a `georss:point` string of exactly two whitespace-separated
numeric tokens "lat lon" resolves to exactly the two parsed values, with no
transformation; a malformed point string (wrong token count or a non-numeric
token) is treated as absent, and resolution proceeds exactly as for an entry
without a point element. -/
theorem point_parse_identity_and_fallthrough :
    (∀ (e : RawEntry) (t a b : String) (la lo : ℚ),
      e.point = some t → pySplit (pyStrip t) = [a, b] →
      pyFloat a = some la → pyFloat b = some lo →
      parse_point_from_entry e = some (la, lo))
    ∧ (∀ (e : RawEntry) (t : String),
      e.point = some t → pointMalformed t = true →
      parse_point_from_entry e = parse_point_from_entry { e with point := none }) := by
  constructor
  · intro e t a b la lo hp htok ha hb
    have hne : t ≠ "" := by
      intro hteq
      rw [hteq] at htok
      have hz : pySplit (pyStrip "") = [] := by decide
      rw [hz] at htok
      exact List.noConfusion htok
    simp [parse_point_from_entry, pointBodyE, hp, hne, htok, ha, hb]
  · intro e t hp hbad
    have herr := pointMalformed_error t hbad
    by_cases hne : t = ""
    · subst hne
      cases e
      simp_all [parse_point_from_entry, resolveStep2, areaFallback]
    · cases e
      simp_all [parse_point_from_entry, resolveStep2, areaFallback]

/-- Witness for C5: a well-formed point resolves to its two values; a
malformed one behaves as if the point element were absent. -/
theorem point_parse_identity_and_fallthrough_witness :
    parse_point_from_entry { emptyEntry with point := some "35.0 -101.5" }
      = some (35, -101.5)
    ∧ parse_point_from_entry
        { emptyEntry with point := some "12,5 33.0", areaDesc := some "near TX" }
      = parse_point_from_entry
        { { emptyEntry with point := some "12,5 33.0", areaDesc := some "near TX" }
          with point := none } := by
  constructor
  · exact point_parse_identity_and_fallthrough.1 _ "35.0 -101.5" "35.0" "-101.5"
      35 (-101.5) rfl (by decide) (by decide) (by decide)
  · exact point_parse_identity_and_fallthrough.2 _ "12,5 33.0" rfl (by decide)

/-- Claim C7: geometry resolution never lets an exception escape to the
caller: for every entry, the exception-propagating embedding of
`parse_point_from_entry` terminates with `Except.ok` of the pure result —
either a resolved pair or the unresolved `none`. -/
theorem parse_point_never_raises (e : RawEntry) :
    parsePointE e = Except.ok (parse_point_from_entry e) := by
  unfold parsePointE parse_point_from_entry
  cases e.point with
  | none => exact resolveStep2E_ok e
  | some t =>
    by_cases hne : t = ""
    · simp only [if_pos hne]
      exact resolveStep2E_ok e
    · simp only [if_neg hne]
      cases pointBodyE t with
      | ok pt => rfl
      | error err => exact resolveStep2E_ok e

/-- Claim C6: for an entry whose point step and polygon step cannot succeed,
the textual fallback governs resolution: if some table key is a substring of
the area-description text, resolution returns the centroid of the first
matching key in table iteration order; if no table key is contained in the
area description, resolution fails. -/
theorem area_desc_fallback (e : RawEntry)
    (hp : pointUnusable e = true) (hq : polyUnusable e = true) :
    (∀ (k : String) (c : ℚ × ℚ),
      STATE_CENTROIDS.find? (fun p => strContains (text_of e.areaDesc) p.1) = some (k, c) →
      parse_point_from_entry e = some c)
    ∧ ((∀ p ∈ STATE_CENTROIDS, strContains (text_of e.areaDesc) p.1 = false) →
      parse_point_from_entry e = none) := by
  have hstep : parse_point_from_entry e = areaFallback e := by
    have h2 : resolveStep2 e = areaFallback e := by
      unfold polyUnusable at hq
      unfold resolveStep2
      cases hpl : e.polygon with
      | none => rfl
      | some t =>
        rw [hpl] at hq
        by_cases hne : t = ""
        · simp [hne]
        · simp [hne] at hq
          simp [hne, polyBodyE_error t hq]
    unfold pointUnusable at hp
    unfold parse_point_from_entry
    cases hpt : e.point with
    | none => exact h2
    | some t =>
      rw [hpt] at hp
      by_cases hne : t = ""
      · simp [hne, h2]
      · simp [hne] at hp
        simp [hne, pointMalformed_error t hp, h2]
  rw [hstep]
  unfold areaFallback
  constructor
  · intro k c hfind
    by_cases ha : text_of e.areaDesc = ""
    · rw [ha] at hfind
      have h0 : STATE_CENTROIDS.find? (fun p => strContains "" p.1) = none := by decide
      rw [h0] at hfind
      exact Option.noConfusion hfind
    · rw [if_neg ha, lookupCentroid_eq_find, hfind]
      rfl
  · intro hall
    have h0 : STATE_CENTROIDS.find? (fun p => strContains (text_of e.areaDesc) p.1) = none := by
      rw [List.find?_eq_none]
      intro p hmem
      simp [hall p hmem]
    by_cases ha : text_of e.areaDesc = ""
    · rw [if_pos ha]
    · rw [if_neg ha, lookupCentroid_eq_find, h0]
      rfl

/-- Witness for C6: an entry with only an area description naming Texas
resolves to the TX table centroid. -/
theorem area_desc_fallback_witness :
    parse_point_from_entry { emptyEntry with areaDesc := some "Lubbock, TX" }
      = some (31.054487, -97.563461) := by
  exact (area_desc_fallback { emptyEntry with areaDesc := some "Lubbock, TX" }
      (by decide) (by decide)).1 "TX" (31.054487, -97.563461) (by decide)

/-- Claim C2 (counterexample): a record whose severity "Possible" is not one
of the four named severity levels does not receive the default (unknown)
style — its style reference is `#sev_possible`, which is not among the five
style ids the document defines. -/
theorem style_unrecognized_counterexample :
    ({ emptyRecord with severity := "Possible" } : Record).severity
        ∉ (["Extreme", "Severe", "Moderate", "Minor"] : List String)
    ∧ (mkPlacemark { emptyRecord with severity := "Possible" }).styleUrl
        ≠ "#sev_unknown"
    ∧ (build_kml [{ emptyRecord with severity := "Possible" }]).placemarks.map
        (fun pm => pm.styleUrl) = ["#sev_possible"]
    ∧ (build_kml [{ emptyRecord with severity := "Possible" }]).styles.map Prod.fst
        = ["sev_extreme", "sev_severe", "sev_moderate", "sev_minor", "sev_unknown"] := by
  refine ⟨by decide, by decide, by decide, by decide⟩

/-- Claim C2 (amended): the marker's style reference is `#sev_` followed by
the lower-cased severity, an absent/empty severity being replaced by
"Unknown" first — so an absent severity receives the default (unknown) style,
while a non-empty unrecognized severity keeps its own lower-cased name in the
reference instead of falling back to the default style. -/
theorem style_reference_formula (r : Record) :
    (mkPlacemark r).styleUrl = "#sev_" ++ pyLower (pyOr r.severity "Unknown")
    ∧ (r.severity = "" → (mkPlacemark r).styleUrl = "#sev_unknown") := by
  constructor
  · rfl
  · intro h
    simp [mkPlacemark, pyOr, h]
    decide

/-- Witness for the amended C2: a record with absent severity gets the
unknown style. -/
theorem style_reference_formula_witness :
    (mkPlacemark emptyRecord).styleUrl = "#sev_unknown" := by
  exact (style_reference_formula emptyRecord).2 rfl

/-- Claim C3: the extended-data block of every record's placemark is exactly
the ten CAP-derived fields in order, each carrying the record's field value
verbatim — so every non-empty field value appears unchanged, and a missing
(empty) field is emitted as an empty-string value rather than omitted. -/
theorem extended_data_roundtrip (r : Record) :
    ((mkPlacemark r).extData = capFields.map (fun p => (p.1, p.2 r)))
    ∧ (∀ p ∈ capFields, (p.1, p.2 r) ∈ (mkPlacemark r).extData) := by
  have hor : ∀ v : String, pyOr v "" = v := by
    intro v
    unfold pyOr
    split <;> simp_all
  have h1 : (mkPlacemark r).extData = capFields.map (fun p => (p.1, p.2 r)) := by
    simp [mkPlacemark, capFields, hor]
  exact ⟨h1, fun p hp => h1 ▸ List.mem_map_of_mem _ hp⟩

/-- Witness for C3: a concrete non-empty event value appears verbatim in the
extended data. -/
theorem extended_data_roundtrip_witness :
    ("ext_event", "Tornado Warning")
      ∈ (mkPlacemark { emptyRecord with event := "Tornado Warning" }).extData := by
  have h := (extended_data_roundtrip { emptyRecord with event := "Tornado Warning" }).2
    ("ext_event", Record.event) (by simp [capFields])
  simpa using h

/-- The placemark list of the processed entries is the order-preserving
filter-map of the raw entries. -/
theorem process_placemarks_eq (entries : List RawEntry) :
    (process entries).map mkPlacemark
      = entries.filterMap
          (fun e => (parse_point_from_entry e).map (fun pt => mkPlacemark (mkRecord pt e))) := by
  induction entries with
  | nil => rfl
  | cons e rest ih =>
    simp only [process, List.filterMap_cons] at ih ⊢
    cases hpe : parse_point_from_entry e with
    | none =>
      simp only [hpe, Option.map_none']
      exact ih
    | some pt =>
      simp only [hpe, Option.map_some', List.map_cons]
      rw [ih]

/-- Kept placemarks and dropped entries partition the input entries. -/
theorem placemark_drop_partition (entries : List RawEntry) :
    (entries.filterMap
        (fun e => (parse_point_from_entry e).map (fun pt => mkPlacemark (mkRecord pt e)))).length
      + (entries.filter (fun e => (parse_point_from_entry e).isNone)).length
      = entries.length := by
  induction entries with
  | nil => rfl
  | cons e rest ih =>
    cases hpe : parse_point_from_entry e with
    | none =>
      simp [List.filterMap_cons, List.filter_cons, hpe]
      omega
    | some pt =>
      simp [List.filterMap_cons, List.filter_cons, hpe]
      omega

/-- Claim C4: the output document contains one marker per resolved entry, in
input order: the placemark list is the input list filtered to entries whose
geometry resolved and mapped (order-preservingly) to their placemarks, and
its length is the number of input entries minus the number dropped for
unresolved geometry. -/
theorem placemark_count_and_order (entries : List RawEntry) :
    ((build_kml (process entries)).placemarks
      = entries.filterMap
          (fun e => (parse_point_from_entry e).map (fun pt => mkPlacemark (mkRecord pt e))))
    ∧ ((build_kml (process entries)).placemarks.length
      = entries.length
        - (entries.filter (fun e => (parse_point_from_entry e).isNone)).length) := by
  have h1 : (build_kml (process entries)).placemarks
      = entries.filterMap
          (fun e => (parse_point_from_entry e).map (fun pt => mkPlacemark (mkRecord pt e))) :=
    process_placemarks_eq entries
  have hadd := placemark_drop_partition entries
  refine ⟨h1, ?_⟩
  rw [h1]
  omega
